import Mathlib

/-!
# Verification of the audience-service benchmarking harness

Shallow embedding of `main.go` (and of the SQL queries it issues against the
schema of `init.sql`) from the repository `audience-service-optimization`.

Modelling conventions:
* Go `time.Duration` values (int64 nanoseconds) are embedded as `ℤ`; the
  arithmetic in the program never comes close to int64 overflow, so wrap-around
  is not modelled.
* Go `float64` arithmetic on duration ratios is embedded exactly in `ℚ`
  (the claims about those values are stated up to floating-point tolerance).
  The one place where the program can divide by zero in `float64`
  (`float64(10000000) / float64(userCount)` with `userCount = 0`) is embedded
  in `WithTop ℚ`, whose `⊤` plays the role of IEEE `+Inf`
  (positive finite / 0.0 = +Inf).
* The output produced on stdout/stderr (`fmt.Printf`, `log.Printf`,
  `log.Fatal`) is embedded as a list of abstract output lines; constant
  banner/separator prints are kept only where they carry information.
* Each SQL query string is embedded as a pure function over an explicit
  relational state (lists of rows), following the text of the query.
-/

/-! ## Relational state and the embedded SQL queries -/

/-- A row of the EAV table `user_attributes` (see `init.sql`). -/
structure AttrRow where
  user_id : Nat
  key : String
  value : String
deriving DecidableEq, Repr

/-- A row of the denormalized, partitioned table `user_profiles` (see `init.sql`).
`total_spend` (DECIMAL) is embedded as `ℚ`. -/
structure ProfileRow where
  user_id : Nat
  country : String
  tier : String
  has_purchased : Bool
  total_spend : ℚ
deriving DecidableEq, Repr

/-- The database state visible to the harness: the `users` table (its single
column `user_id`), the `user_attributes` EAV table and the `user_profiles`
denormalized table. -/
structure DBState where
  users : List Nat
  user_attributes : List AttrRow
  user_profiles : List ProfileRow

/-- The `EXISTS` subquery of `oldEAVQuery` (`main.go` lines 42-47): does some
`user_attributes` row have this `user_id`, `key = 'country'` and `value = 'US'`? -/
def hasCountryUS (attrs : List AttrRow) (u : Nat) : Bool :=
  attrs.any fun a => a.user_id == u && a.key == "country" && a.value == "US"

/-- `oldEAVQuery` (`main.go` lines 38-55):
`SELECT COUNT(DISTINCT u.user_id) FROM users u WHERE EXISTS (... country = 'US' ...)`. -/
def oldEAVQueryCount (s : DBState) : Nat :=
  ((s.users.filter fun u => hasCountryUS s.user_attributes u).dedup).length

/-- `optimizedQuery` (`main.go` lines 84-96):
`SELECT COUNT(*) FROM user_profiles WHERE country = 'US'`. -/
def optimizedQueryCount (s : DBState) : Nat :=
  (s.user_profiles.filter fun p => p.country == "US").length

/-! ## The Extrapolator (`main.go` lines 236-242, generalized target) -/

/-- The 2-second latency budget, in nanoseconds (`2*time.Second`). -/
def budgetNs : ℤ := 2 * 1000000000

/-- The fixed extrapolation target cardinality (`10000000` in `main.go` line 237-238). -/
def extrapTargetN : ℤ := 10000000

/-- The Extrapolator as a pure function, generalizing `main.go` lines 238-241
over the target cardinality: `scaleFactor := targetN / measuredN`,
`estimated := d * scaleFactor`, verdict `estimated < 2*time.Second`.
The float arithmetic is embedded exactly in `ℚ` (`d` is in nanoseconds). -/
def extrapolate (d : ℚ) (measuredN targetN : ℕ) : ℚ × Bool :=
  let scaleFactor : ℚ := (targetN : ℚ) / (measuredN : ℚ)
  let estimated : ℚ := d * scaleFactor
  (estimated, decide (estimated < (budgetNs : ℚ)))

/-- The concrete scale-and-project computation of `main.go` lines 238-239 with
the fixed `10000000` target, including the `float64` division-by-zero case:
when `userCount = 0` the scale factor is `+Inf` (here `⊤`), and multiplying a
positive `duration2` by it stays `+Inf`. Finite arithmetic is exact `ℚ`. -/
def estimatedFor10M (userCount d2 : ℤ) : WithTop ℚ :=
  if userCount = 0 then ⊤
  else (((d2 : ℚ) * ((extrapTargetN : ℚ) / (userCount : ℚ)) : ℚ) : WithTop ℚ)

/-- The verdict printed at `main.go` line 241: `estimatedTime < 2*time.Second`.
On the `+Inf` branch Go's conversion of `+Inf` to int64 nanoseconds is
platform-defined; the model takes the verdict to be `false` there (the value
does not meet the budget). No claim depends on the verdict at `⊤`. -/
def extrapVerdict (userCount d2 : ℤ) : Bool :=
  match estimatedFor10M userCount d2 with
  | none => false
  | some q => decide (q < (budgetNs : ℚ))

/-! ## The run of `main` (`main.go` lines 150-243) as a function of its inputs -/

/-- Which schema arm a measurement belongs to. -/
inductive Arm where
  | eav
  | opt
deriving DecidableEq, Repr

/-- The result of one timed query call (`count, duration, err` as returned by
`oldEAVQuery` & co.). The duration is measured with `time.Since` regardless of
success, so an errored call still carries a duration. -/
structure QueryResult where
  count : ℤ
  duration : ℤ
  err : Option String
deriving DecidableEq, Repr

/-- Everything the environment (database) feeds into one run of `main`:
connect/ping failures, the result of `SELECT COUNT(*) FROM users`, the five
scenario query results (`q1` = `oldEAVQuery`, `q2` = `optimizedQuery`,
`q3` = `oldEAVComplexQuery`, `q4` = `optimizedComplexQuery`,
`q5` = `optimizedANDQuery`) and the EXPLAIN query's rows. -/
structure RunInputs where
  connectErr : Option String
  pingErr : Option String
  usersCount : Except String ℤ
  q1 : QueryResult
  q2 : QueryResult
  q3 : QueryResult
  q4 : QueryResult
  q5 : QueryResult
  explainRows : Except String (List (Except String String))
  explainIterErr : Option String

/-- One user-visible output line of the run (stdout or stderr). -/
inductive OutLine where
  | info (s : String)
  | fatal (s : String)
  | dataset (n : ℤ)
  | result (test : Nat) (arm : Arm) (count : ℤ) (duration : ℤ)
  | queryError (test : Nat) (arm : Arm) (msg : String)
  | speedup (test : Nat) (ratio : ℚ)
  | planLine (s : String)
  | explainError (msg : String)
  | summaryDataset (n : ℤ)
  | avgSpeedup (ratio : ℚ)
  | targetAchieved (b : Bool)
  | estimated (v : WithTop ℚ)
  | extrapTarget (b : Bool)
deriving DecidableEq, Repr

/-- One measurement arm of a test, `main.go` lines 173-178 etc.: on error a
`log.Printf` line, otherwise the formatted count/duration line. -/
def armLines (test : Nat) (arm : Arm) (q : QueryResult) : List OutLine :=
  match q.err with
  | some e => [.queryError test arm e]
  | none => [.result test arm q.count q.duration]

/-- The speedup print of `main.go` lines 187-190 / 209-212: printed iff both
durations are positive, with value `float64(dBase)/float64(dOpt)`. -/
def speedupLines (test : Nat) (dBase dOpt : ℤ) : List OutLine :=
  if 0 < dBase ∧ 0 < dOpt then [.speedup test ((dBase : ℚ) / (dOpt : ℚ))] else []

/-- One iteration of the row loop of `explainQuery` (`main.go` lines 141-147):
a row whose `rows.Scan` succeeds is printed; a row whose `rows.Scan` fails is
skipped with `continue` — the scan error produces no output at all. -/
def planRowLine (row : Except String String) : Option OutLine :=
  match row with
  | .ok s => some (.planLine s)
  | .error _ => none

/-- The plan-inspector display, `main.go` lines 131-148: a logged error line if
the EXPLAIN query itself fails, otherwise one line per successfully scanned
row, with failed scans silently skipped. `rows.Err()` is never consulted, so
an iteration error (`RunInputs.explainIterErr`) merely ends the loop early:
the rows the model receives are the ones delivered before it, and the error
value itself is never read by the program. -/
def planLines (r : Except String (List (Except String String))) : List OutLine :=
  match r with
  | .error e => [.explainError e]
  | .ok rows => rows.filterMap planRowLine

/-- The summary block, `main.go` lines 230-234: average speedup
`float64(duration1+duration3)/float64(duration2+duration4)` and the target
verdict `duration2 < 2*time.Second && duration4 < 2*time.Second`, both printed
only when `duration1 > 0 && duration2 > 0`. -/
def summaryLines (i : RunInputs) : List OutLine :=
  if 0 < i.q1.duration ∧ 0 < i.q2.duration then
    [.avgSpeedup (((i.q1.duration + i.q3.duration : ℤ) : ℚ) / ((i.q2.duration + i.q4.duration : ℤ) : ℚ)),
     .targetAchieved (decide (i.q2.duration < budgetNs ∧ i.q4.duration < budgetNs))]
  else []

/-- The extrapolation block, `main.go` lines 236-242: guarded by
`userCount < 10000000 && duration2 > 0`; prints the projected duration and the
budget verdict. -/
def extrapolationLines (userCount d2 : ℤ) : List OutLine :=
  if userCount < extrapTargetN ∧ 0 < d2 then
    [.estimated (estimatedFor10M userCount d2),
     .extrapTarget (extrapVerdict userCount d2)]
  else []

/-- The value left in `userCount` by `main.go` line 167: `Scan` does not
assign on error, so a failed `SELECT COUNT(*) FROM users` leaves the zero
value — and the error itself is discarded. -/
def scannedUserCount (r : Except String ℤ) : ℤ :=
  match r with
  | .ok n => n
  | .error _ => 0

/-- The whole run of `main` (lines 150-243). Connect and ping failures are
fatal (`log.Fatal`). The error of `SELECT COUNT(*) FROM users` at line 167 is
discarded: `Scan` does not assign on error, so `userCount` keeps its zero
value and no line reports the failure. -/
def mainRun (i : RunInputs) : List OutLine :=
  match i.connectErr with
  | some e => [.fatal ("Failed to connect to database:" ++ e)]
  | none =>
    match i.pingErr with
    | some e => [.fatal ("Database is not responding:" ++ e)]
    | none =>
      let userCount : ℤ := scannedUserCount i.usersCount
      [.info "Connected to PostgreSQL", .dataset userCount, .info "Test 1: Simple Query"]
      ++ armLines 1 .eav i.q1 ++ armLines 1 .opt i.q2
      ++ speedupLines 1 i.q1.duration i.q2.duration
      ++ [.info "Test 2: Complex OR Query"]
      ++ armLines 2 .eav i.q3 ++ armLines 2 .opt i.q4
      ++ speedupLines 2 i.q3.duration i.q4.duration
      ++ [.info "Test 3: Complex AND Query"]
      ++ armLines 3 .opt i.q5
      ++ [.info "Query Execution Plan (Optimized Model)"]
      ++ planLines i.explainRows
      ++ [.info "Summary", .summaryDataset userCount]
      ++ summaryLines i
      ++ extrapolationLines userCount i.q2.duration

/-! ## Accessors selecting the lines a claim talks about -/

/-- The numeric speedup entries of an output, with their test number. -/
def speedupEntries (ls : List OutLine) : List (Nat × ℚ) :=
  ls.filterMap fun l => match l with
    | .speedup t r => some (t, r)
    | _ => none

/-- The aggregate average-speedup entries of an output. -/
def avgSpeedupEntries (ls : List OutLine) : List ℚ :=
  ls.filterMap fun l => match l with
    | .avgSpeedup r => some r
    | _ => none

/-- The `Target achieved` verdict entries of an output. -/
def targetAchievedEntries (ls : List OutLine) : List Bool :=
  ls.filterMap fun l => match l with
    | .targetAchieved b => some b
    | _ => none

/-- The projected-duration entries of an output. -/
def estimatedEntries (ls : List OutLine) : List (WithTop ℚ) :=
  ls.filterMap fun l => match l with
    | .estimated v => some v
    | _ => none

/-- The extrapolation budget-verdict entries of an output. -/
def extrapVerdictEntries (ls : List OutLine) : List Bool :=
  ls.filterMap fun l => match l with
    | .extrapTarget b => some b
    | _ => none

/-- The lines that report a failure to the user (per-query log lines, the
EXPLAIN error log line, and fatal lines). -/
def errorEntries (ls : List OutLine) : List OutLine :=
  ls.filter fun l => match l with
    | .queryError _ _ _ => true
    | .explainError _ => true
    | .fatal _ => true
    | _ => false

/-! ## Characterizations of where each kind of line appears in a run -/

/-- The error line(s) one arm contributes: one `log.Printf` line per error. -/
def errOpt (test : Nat) (arm : Arm) (e : Option String) : List OutLine :=
  match e with
  | some m => [.queryError test arm m]
  | none => []

/-- The error line the plan inspector contributes when the EXPLAIN query fails. -/
def explainErrOpt (r : Except String (List (Except String String))) : List OutLine :=
  match r with
  | .error e => [.explainError e]
  | .ok _ => []

theorem speedupEntries_append (l1 l2 : List OutLine) :
    speedupEntries (l1 ++ l2) = speedupEntries l1 ++ speedupEntries l2 := by
  simp [speedupEntries]

theorem speedupEntries_cons_info (s : String) (ls : List OutLine) :
    speedupEntries (.info s :: ls) = speedupEntries ls := by
  simp [speedupEntries]

theorem speedupEntries_cons_dataset (n : ℤ) (ls : List OutLine) :
    speedupEntries (.dataset n :: ls) = speedupEntries ls := by
  simp [speedupEntries]

theorem speedupEntries_cons_summaryDataset (n : ℤ) (ls : List OutLine) :
    speedupEntries (.summaryDataset n :: ls) = speedupEntries ls := by
  simp [speedupEntries]

theorem speedupEntries_nil : speedupEntries [] = [] := rfl

theorem speedupEntries_armLines (t : Nat) (a : Arm) (q : QueryResult) :
    speedupEntries (armLines t a q) = [] := by
  cases h : q.err <;> simp [armLines, h, speedupEntries]

theorem speedupEntries_planRows (rows : List (Except String String)) :
    speedupEntries (rows.filterMap planRowLine) = [] := by
  induction rows with
  | nil => rfl
  | cons a as ih => cases a <;> exact ih

theorem speedupEntries_planLines (r : Except String (List (Except String String))) :
    speedupEntries (planLines r) = [] := by
  cases r with
  | error e => simp [planLines, speedupEntries]
  | ok rows => exact speedupEntries_planRows rows

theorem speedupEntries_summaryLines (i : RunInputs) :
    speedupEntries (summaryLines i) = [] := by
  unfold summaryLines
  split_ifs <;> simp [speedupEntries]

theorem speedupEntries_extrapolationLines (uc d2 : ℤ) :
    speedupEntries (extrapolationLines uc d2) = [] := by
  unfold extrapolationLines
  split_ifs <;> simp [speedupEntries]

theorem speedupEntries_speedupLines (t : Nat) (a b : ℤ) :
    speedupEntries (speedupLines t a b) =
      if 0 < a ∧ 0 < b then [(t, (a : ℚ) / (b : ℚ))] else [] := by
  unfold speedupLines
  split_ifs <;> simp [speedupEntries]

theorem speedupEntries_mainRun (i : RunInputs)
    (hc : i.connectErr = none) (hp : i.pingErr = none) :
    speedupEntries (mainRun i) =
      (if 0 < i.q1.duration ∧ 0 < i.q2.duration then
        [(1, (i.q1.duration : ℚ) / (i.q2.duration : ℚ))] else [])
      ++ (if 0 < i.q3.duration ∧ 0 < i.q4.duration then
        [(2, (i.q3.duration : ℚ) / (i.q4.duration : ℚ))] else []) := by
  unfold mainRun
  rw [hc, hp]
  simp only [speedupEntries_append, speedupEntries_cons_info, speedupEntries_cons_dataset,
    speedupEntries_cons_summaryDataset, speedupEntries_nil, speedupEntries_armLines,
    speedupEntries_planLines, speedupEntries_summaryLines, speedupEntries_extrapolationLines,
    speedupEntries_speedupLines, List.append_nil, List.nil_append, List.append_assoc]

theorem avgSpeedupEntries_append (l1 l2 : List OutLine) :
    avgSpeedupEntries (l1 ++ l2) = avgSpeedupEntries l1 ++ avgSpeedupEntries l2 := by
  simp [avgSpeedupEntries]

theorem avgSpeedupEntries_cons_info (s : String) (ls : List OutLine) :
    avgSpeedupEntries (.info s :: ls) = avgSpeedupEntries ls := by
  simp [avgSpeedupEntries]

theorem avgSpeedupEntries_cons_dataset (n : ℤ) (ls : List OutLine) :
    avgSpeedupEntries (.dataset n :: ls) = avgSpeedupEntries ls := by
  simp [avgSpeedupEntries]

theorem avgSpeedupEntries_cons_summaryDataset (n : ℤ) (ls : List OutLine) :
    avgSpeedupEntries (.summaryDataset n :: ls) = avgSpeedupEntries ls := by
  simp [avgSpeedupEntries]

theorem avgSpeedupEntries_nil : avgSpeedupEntries [] = [] := rfl

theorem avgSpeedupEntries_armLines (t : Nat) (a : Arm) (q : QueryResult) :
    avgSpeedupEntries (armLines t a q) = [] := by
  cases h : q.err <;> simp [armLines, h, avgSpeedupEntries]

theorem avgSpeedupEntries_planRows (rows : List (Except String String)) :
    avgSpeedupEntries (rows.filterMap planRowLine) = [] := by
  induction rows with
  | nil => rfl
  | cons a as ih => cases a <;> exact ih

theorem avgSpeedupEntries_planLines (r : Except String (List (Except String String))) :
    avgSpeedupEntries (planLines r) = [] := by
  cases r with
  | error e => simp [planLines, avgSpeedupEntries]
  | ok rows => exact avgSpeedupEntries_planRows rows

theorem avgSpeedupEntries_speedupLines (t : Nat) (a b : ℤ) :
    avgSpeedupEntries (speedupLines t a b) = [] := by
  unfold speedupLines
  split_ifs <;> simp [avgSpeedupEntries]

theorem avgSpeedupEntries_extrapolationLines (uc d2 : ℤ) :
    avgSpeedupEntries (extrapolationLines uc d2) = [] := by
  unfold extrapolationLines
  split_ifs <;> simp [avgSpeedupEntries]

theorem avgSpeedupEntries_summaryLines (i : RunInputs) :
    avgSpeedupEntries (summaryLines i) =
      if 0 < i.q1.duration ∧ 0 < i.q2.duration then
        [((i.q1.duration + i.q3.duration : ℤ) : ℚ) / ((i.q2.duration + i.q4.duration : ℤ) : ℚ)]
      else [] := by
  unfold summaryLines
  split_ifs <;> simp [avgSpeedupEntries]

theorem avgSpeedupEntries_mainRun (i : RunInputs)
    (hc : i.connectErr = none) (hp : i.pingErr = none) :
    avgSpeedupEntries (mainRun i) =
      if 0 < i.q1.duration ∧ 0 < i.q2.duration then
        [((i.q1.duration + i.q3.duration : ℤ) : ℚ) / ((i.q2.duration + i.q4.duration : ℤ) : ℚ)]
      else [] := by
  unfold mainRun
  rw [hc, hp]
  simp only [avgSpeedupEntries_append, avgSpeedupEntries_cons_info, avgSpeedupEntries_cons_dataset,
    avgSpeedupEntries_cons_summaryDataset, avgSpeedupEntries_nil, avgSpeedupEntries_armLines,
    avgSpeedupEntries_planLines, avgSpeedupEntries_speedupLines,
    avgSpeedupEntries_extrapolationLines, avgSpeedupEntries_summaryLines,
    List.append_nil, List.nil_append]

theorem targetAchievedEntries_append (l1 l2 : List OutLine) :
    targetAchievedEntries (l1 ++ l2) = targetAchievedEntries l1 ++ targetAchievedEntries l2 := by
  simp [targetAchievedEntries]

theorem targetAchievedEntries_cons_info (s : String) (ls : List OutLine) :
    targetAchievedEntries (.info s :: ls) = targetAchievedEntries ls := by
  simp [targetAchievedEntries]

theorem targetAchievedEntries_cons_dataset (n : ℤ) (ls : List OutLine) :
    targetAchievedEntries (.dataset n :: ls) = targetAchievedEntries ls := by
  simp [targetAchievedEntries]

theorem targetAchievedEntries_cons_summaryDataset (n : ℤ) (ls : List OutLine) :
    targetAchievedEntries (.summaryDataset n :: ls) = targetAchievedEntries ls := by
  simp [targetAchievedEntries]

theorem targetAchievedEntries_nil : targetAchievedEntries [] = [] := rfl

theorem targetAchievedEntries_armLines (t : Nat) (a : Arm) (q : QueryResult) :
    targetAchievedEntries (armLines t a q) = [] := by
  cases h : q.err <;> simp [armLines, h, targetAchievedEntries]

theorem targetAchievedEntries_planRows (rows : List (Except String String)) :
    targetAchievedEntries (rows.filterMap planRowLine) = [] := by
  induction rows with
  | nil => rfl
  | cons a as ih => cases a <;> exact ih

theorem targetAchievedEntries_planLines (r : Except String (List (Except String String))) :
    targetAchievedEntries (planLines r) = [] := by
  cases r with
  | error e => simp [planLines, targetAchievedEntries]
  | ok rows => exact targetAchievedEntries_planRows rows

theorem targetAchievedEntries_speedupLines (t : Nat) (a b : ℤ) :
    targetAchievedEntries (speedupLines t a b) = [] := by
  unfold speedupLines
  split_ifs <;> simp [targetAchievedEntries]

theorem targetAchievedEntries_extrapolationLines (uc d2 : ℤ) :
    targetAchievedEntries (extrapolationLines uc d2) = [] := by
  unfold extrapolationLines
  split_ifs <;> simp [targetAchievedEntries]

theorem targetAchievedEntries_summaryLines (i : RunInputs) :
    targetAchievedEntries (summaryLines i) =
      if 0 < i.q1.duration ∧ 0 < i.q2.duration then
        [decide (i.q2.duration < budgetNs ∧ i.q4.duration < budgetNs)]
      else [] := by
  unfold summaryLines
  split_ifs <;> simp [targetAchievedEntries]

theorem targetAchievedEntries_mainRun (i : RunInputs)
    (hc : i.connectErr = none) (hp : i.pingErr = none) :
    targetAchievedEntries (mainRun i) =
      if 0 < i.q1.duration ∧ 0 < i.q2.duration then
        [decide (i.q2.duration < budgetNs ∧ i.q4.duration < budgetNs)]
      else [] := by
  unfold mainRun
  rw [hc, hp]
  simp only [targetAchievedEntries_append, targetAchievedEntries_cons_info,
    targetAchievedEntries_cons_dataset, targetAchievedEntries_cons_summaryDataset,
    targetAchievedEntries_nil, targetAchievedEntries_armLines, targetAchievedEntries_planLines,
    targetAchievedEntries_speedupLines, targetAchievedEntries_extrapolationLines,
    targetAchievedEntries_summaryLines, List.append_nil, List.nil_append]

theorem estimatedEntries_append (l1 l2 : List OutLine) :
    estimatedEntries (l1 ++ l2) = estimatedEntries l1 ++ estimatedEntries l2 := by
  simp [estimatedEntries]

theorem estimatedEntries_cons_info (s : String) (ls : List OutLine) :
    estimatedEntries (.info s :: ls) = estimatedEntries ls := by
  simp [estimatedEntries]

theorem estimatedEntries_cons_dataset (n : ℤ) (ls : List OutLine) :
    estimatedEntries (.dataset n :: ls) = estimatedEntries ls := by
  simp [estimatedEntries]

theorem estimatedEntries_cons_summaryDataset (n : ℤ) (ls : List OutLine) :
    estimatedEntries (.summaryDataset n :: ls) = estimatedEntries ls := by
  simp [estimatedEntries]

theorem estimatedEntries_nil : estimatedEntries [] = [] := rfl

theorem estimatedEntries_armLines (t : Nat) (a : Arm) (q : QueryResult) :
    estimatedEntries (armLines t a q) = [] := by
  cases h : q.err <;> simp [armLines, h, estimatedEntries]

theorem estimatedEntries_planLines (r : Except String (List (Except String String))) :
    estimatedEntries (planLines r) = [] := by
  cases r with
  | error e => simp [planLines, estimatedEntries]
  | ok rows =>
    induction rows with
    | nil => rfl
    | cons a as ih => cases a <;> exact ih

theorem estimatedEntries_speedupLines (t : Nat) (a b : ℤ) :
    estimatedEntries (speedupLines t a b) = [] := by
  unfold speedupLines
  split_ifs <;> simp [estimatedEntries]

theorem estimatedEntries_summaryLines (i : RunInputs) :
    estimatedEntries (summaryLines i) = [] := by
  unfold summaryLines
  split_ifs <;> simp [estimatedEntries]

theorem estimatedEntries_extrapolationLines (uc d2 : ℤ) :
    estimatedEntries (extrapolationLines uc d2) =
      if uc < extrapTargetN ∧ 0 < d2 then [estimatedFor10M uc d2] else [] := by
  unfold extrapolationLines
  split_ifs <;> simp [estimatedEntries]

theorem estimatedEntries_mainRun (i : RunInputs)
    (hc : i.connectErr = none) (hp : i.pingErr = none) :
    estimatedEntries (mainRun i) =
      if scannedUserCount i.usersCount < extrapTargetN ∧ 0 < i.q2.duration then
        [estimatedFor10M (scannedUserCount i.usersCount) i.q2.duration]
      else [] := by
  unfold mainRun
  rw [hc, hp]
  simp only [estimatedEntries_append, estimatedEntries_cons_info, estimatedEntries_cons_dataset,
    estimatedEntries_cons_summaryDataset, estimatedEntries_nil, estimatedEntries_armLines,
    estimatedEntries_planLines, estimatedEntries_speedupLines, estimatedEntries_summaryLines,
    estimatedEntries_extrapolationLines, List.append_nil, List.nil_append]

theorem extrapVerdictEntries_append (l1 l2 : List OutLine) :
    extrapVerdictEntries (l1 ++ l2) = extrapVerdictEntries l1 ++ extrapVerdictEntries l2 := by
  simp [extrapVerdictEntries]

theorem extrapVerdictEntries_cons_info (s : String) (ls : List OutLine) :
    extrapVerdictEntries (.info s :: ls) = extrapVerdictEntries ls := by
  simp [extrapVerdictEntries]

theorem extrapVerdictEntries_cons_dataset (n : ℤ) (ls : List OutLine) :
    extrapVerdictEntries (.dataset n :: ls) = extrapVerdictEntries ls := by
  simp [extrapVerdictEntries]

theorem extrapVerdictEntries_cons_summaryDataset (n : ℤ) (ls : List OutLine) :
    extrapVerdictEntries (.summaryDataset n :: ls) = extrapVerdictEntries ls := by
  simp [extrapVerdictEntries]

theorem extrapVerdictEntries_nil : extrapVerdictEntries [] = [] := rfl

theorem extrapVerdictEntries_armLines (t : Nat) (a : Arm) (q : QueryResult) :
    extrapVerdictEntries (armLines t a q) = [] := by
  cases h : q.err <;> simp [armLines, h, extrapVerdictEntries]

theorem extrapVerdictEntries_planLines (r : Except String (List (Except String String))) :
    extrapVerdictEntries (planLines r) = [] := by
  cases r with
  | error e => simp [planLines, extrapVerdictEntries]
  | ok rows =>
    induction rows with
    | nil => rfl
    | cons a as ih => cases a <;> exact ih

theorem extrapVerdictEntries_speedupLines (t : Nat) (a b : ℤ) :
    extrapVerdictEntries (speedupLines t a b) = [] := by
  unfold speedupLines
  split_ifs <;> simp [extrapVerdictEntries]

theorem extrapVerdictEntries_summaryLines (i : RunInputs) :
    extrapVerdictEntries (summaryLines i) = [] := by
  unfold summaryLines
  split_ifs <;> simp [extrapVerdictEntries]

theorem extrapVerdictEntries_extrapolationLines (uc d2 : ℤ) :
    extrapVerdictEntries (extrapolationLines uc d2) =
      if uc < extrapTargetN ∧ 0 < d2 then [extrapVerdict uc d2] else [] := by
  unfold extrapolationLines
  split_ifs <;> simp [extrapVerdictEntries]

theorem extrapVerdictEntries_mainRun (i : RunInputs)
    (hc : i.connectErr = none) (hp : i.pingErr = none) :
    extrapVerdictEntries (mainRun i) =
      if scannedUserCount i.usersCount < extrapTargetN ∧ 0 < i.q2.duration then
        [extrapVerdict (scannedUserCount i.usersCount) i.q2.duration]
      else [] := by
  unfold mainRun
  rw [hc, hp]
  simp only [extrapVerdictEntries_append, extrapVerdictEntries_cons_info,
    extrapVerdictEntries_cons_dataset, extrapVerdictEntries_cons_summaryDataset,
    extrapVerdictEntries_nil, extrapVerdictEntries_armLines, extrapVerdictEntries_planLines,
    extrapVerdictEntries_speedupLines, extrapVerdictEntries_summaryLines,
    extrapVerdictEntries_extrapolationLines, List.append_nil, List.nil_append]

theorem errorEntries_append (l1 l2 : List OutLine) :
    errorEntries (l1 ++ l2) = errorEntries l1 ++ errorEntries l2 := by
  simp [errorEntries]

theorem errorEntries_cons_info (s : String) (ls : List OutLine) :
    errorEntries (.info s :: ls) = errorEntries ls := by
  simp [errorEntries]

theorem errorEntries_cons_dataset (n : ℤ) (ls : List OutLine) :
    errorEntries (.dataset n :: ls) = errorEntries ls := by
  simp [errorEntries]

theorem errorEntries_cons_summaryDataset (n : ℤ) (ls : List OutLine) :
    errorEntries (.summaryDataset n :: ls) = errorEntries ls := by
  simp [errorEntries]

theorem errorEntries_nil : errorEntries [] = [] := rfl

theorem errorEntries_armLines (t : Nat) (a : Arm) (q : QueryResult) :
    errorEntries (armLines t a q) = errOpt t a q.err := by
  cases h : q.err <;> simp [armLines, h, errorEntries, errOpt]

theorem errorEntries_planLines (r : Except String (List (Except String String))) :
    errorEntries (planLines r) = explainErrOpt r := by
  cases r with
  | error e => simp [planLines, errorEntries, explainErrOpt]
  | ok rows =>
    induction rows with
    | nil => rfl
    | cons a as ih => cases a <;> exact ih

theorem errorEntries_speedupLines (t : Nat) (a b : ℤ) :
    errorEntries (speedupLines t a b) = [] := by
  unfold speedupLines
  split_ifs <;> simp [errorEntries]

theorem errorEntries_summaryLines (i : RunInputs) :
    errorEntries (summaryLines i) = [] := by
  unfold summaryLines
  split_ifs <;> simp [errorEntries]

theorem errorEntries_extrapolationLines (uc d2 : ℤ) :
    errorEntries (extrapolationLines uc d2) = [] := by
  unfold extrapolationLines
  split_ifs <;> simp [errorEntries]

/-- Which failures become user-visible lines in a completed run: exactly the
five scenario-query errors and an EXPLAIN execution error. The result of
`SELECT COUNT(*) FROM users` (`i.usersCount`) does not occur on the right-hand
side: its error never produces a line. -/
theorem errorEntries_mainRun (i : RunInputs)
    (hc : i.connectErr = none) (hp : i.pingErr = none) :
    errorEntries (mainRun i) =
      errOpt 1 .eav i.q1.err ++ errOpt 1 .opt i.q2.err
      ++ errOpt 2 .eav i.q3.err ++ errOpt 2 .opt i.q4.err
      ++ errOpt 3 .opt i.q5.err
      ++ explainErrOpt i.explainRows := by
  unfold mainRun
  rw [hc, hp]
  simp only [errorEntries_append, errorEntries_cons_info, errorEntries_cons_dataset,
    errorEntries_cons_summaryDataset, errorEntries_nil, errorEntries_armLines,
    errorEntries_planLines, errorEntries_speedupLines, errorEntries_summaryLines,
    errorEntries_extrapolationLines, List.append_nil, List.nil_append, List.append_assoc]

/-! ## Claim theorems: the Extrapolator -/

/-- C5: Extrapolation is linear in the target cardinality: for every duration
`d` and cardinality `N > 0`, extrapolating `d` from `N` to target `N` returns
exactly `d`, and extrapolating `d` from `N` to target `2N` returns exactly `2d`. -/
theorem extrapolate_identity_and_doubling (d : ℚ) (N : ℕ) (hN : 0 < N) :
    (extrapolate d N N).1 = d ∧ (extrapolate d N (2 * N)).1 = 2 * d := by
  have hN0 : (N : ℚ) ≠ 0 := Nat.cast_ne_zero.mpr hN.ne'
  constructor
  · show d * ((N : ℚ) / (N : ℚ)) = d
    rw [div_self hN0, mul_one]
  · show d * (((2 * N : ℕ) : ℚ) / (N : ℚ)) = 2 * d
    push_cast
    field_simp
    ring

/-- Witness for C5 at `d = 7`, `N = 3`. -/
theorem extrapolate_identity_and_doubling_witness :
    (extrapolate 7 3 3).1 = 7 ∧ (extrapolate 7 3 (2 * 3)).1 = 2 * 7 :=
  extrapolate_identity_and_doubling 7 3 (by decide)

/-- C6: the extrapolation pass/fail verdict is monotone in the target
cardinality: for fixed non-negative measured duration and fixed positive
measured cardinality, if the verdict passes at a larger target it passes at
every smaller target (increasing the target can only move pass → fail). -/
theorem extrapolate_verdict_monotone (d : ℚ) (N t1 t2 : ℕ)
    (hN : 0 < N) (hd : 0 ≤ d) (ht : t1 ≤ t2)
    (hpass : (extrapolate d N t2).2 = true) :
    (extrapolate d N t1).2 = true := by
  simp only [extrapolate, decide_eq_true_eq] at hpass ⊢
  refine lt_of_le_of_lt ?_ hpass
  have hNQ : (0 : ℚ) < (N : ℚ) := by exact_mod_cast hN
  have htQ : (t1 : ℚ) ≤ (t2 : ℚ) := by exact_mod_cast ht
  gcongr

/-- Witness for C6 at `d = 1`, `N = 1`, targets `1 ≤ 2`. -/
theorem extrapolate_verdict_monotone_witness :
    (extrapolate 1 1 1).2 = true :=
  extrapolate_verdict_monotone 1 1 1 2 (by decide) (by norm_num) (by decide)
    (by norm_num [extrapolate, budgetNs])

/-! ## Claim theorem: semantic equivalence of the two single-equality queries -/

/-- C8: whenever the two schemas represent the same users — the `users` table
and the `user_profiles` table hold the same set of user ids, each exactly once
(user identity is the primary key on both sides), and a profile's `country`
column is `'US'` exactly when that user has a `('country','US')` row in
`user_attributes` — the EAV count-distinct-with-EXISTS query and the
denormalized `COUNT(*)` query return the same count. -/
theorem eav_and_optimized_query_agree (s : DBState)
    (hU : s.users.Nodup)
    (hP : (s.user_profiles.map ProfileRow.user_id).Nodup)
    (hPU : ∀ u ∈ s.users, u ∈ s.user_profiles.map ProfileRow.user_id)
    (hUP : ∀ u ∈ s.user_profiles.map ProfileRow.user_id, u ∈ s.users)
    (hRepr : ∀ p ∈ s.user_profiles,
      (p.country == "US") = hasCountryUS s.user_attributes p.user_id) :
    oldEAVQueryCount s = optimizedQueryCount s := by
  unfold oldEAVQueryCount optimizedQueryCount
  have hfil : (s.users.filter fun u => hasCountryUS s.user_attributes u).Nodup :=
    hU.filter _
  rw [List.dedup_eq_self.mpr hfil]
  have htf : s.users.toFinset = (s.user_profiles.map ProfileRow.user_id).toFinset := by
    apply List.toFinset.ext
    intro u
    exact ⟨fun h => hPU u h, fun h => hUP u h⟩
  have hperm : s.users.Perm (s.user_profiles.map ProfileRow.user_id) :=
    List.perm_of_nodup_nodup_toFinset_eq hU hP htf
  rw [(hperm.filter _).length_eq]
  rw [List.filter_map, List.length_map]
  congr 1
  apply List.filter_congr
  intro p hp
  exact (hRepr p hp).symm

/-- The end-to-end fixture: 100 synthetic users with ids 1..100, users 1..40
with country `'US'` in both schemas. -/
def fixtureUsers : List Nat := List.range' 1 100

/-- Country of a fixture user: the first 40 are US. -/
def fixtureCountry (u : Nat) : String := if u ≤ 40 then "US" else "UK"

/-- EAV rows of the fixture: one `country` attribute per user. -/
def fixtureAttrs : List AttrRow :=
  fixtureUsers.map fun u => ⟨u, "country", fixtureCountry u⟩

/-- Denormalized rows of the fixture: one profile per user with the same country. -/
def fixtureProfiles : List ProfileRow :=
  fixtureUsers.map fun u => ⟨u, fixtureCountry u, "free", false, 0⟩

/-- The populated fixture database: both schemas hold the same 100 users. -/
def fixtureDB : DBState := ⟨fixtureUsers, fixtureAttrs, fixtureProfiles⟩

set_option maxRecDepth 40000 in
/-- Witness for C8 on the 100-user fixture; both queries return 40. -/
theorem eav_and_optimized_query_agree_witness :
    oldEAVQueryCount fixtureDB = optimizedQueryCount fixtureDB ∧
    optimizedQueryCount fixtureDB = 40 :=
  ⟨eav_and_optimized_query_agree fixtureDB (by decide) (by decide) (by decide) (by decide)
    (by decide), by decide⟩

/-! ## Claim theorems: the run of `main` -/

/-- Run where the EAV arm of the simple scenario fails after 5ns but the
speedup is still printed. -/
def cexFailedArm : RunInputs :=
  { connectErr := none, pingErr := none, usersCount := .ok 100000,
    q1 := ⟨0, 5, some "connection reset by peer"⟩,
    q2 := ⟨40, 1, none⟩, q3 := ⟨46, 3, none⟩, q4 := ⟨46, 1, none⟩,
    q5 := ⟨12, 1, none⟩, explainRows := .ok [.ok "Aggregate"],
    explainIterErr := none }

/-- C1 counterexample: in `cexFailedArm` the baseline arm of scenario 1
returned an error, yet a numeric speedup (5x) is printed for scenario 1 —
the guard at `main.go` line 187 tests durations, not errors, and an errored
query still carries its positive `time.Since` duration. -/
theorem speedup_printed_despite_failed_arm :
    cexFailedArm.q1.err ≠ none ∧
    (1, (5 : ℚ)) ∈ speedupEntries (mainRun cexFailedArm) := by
  constructor
  · simp [cexFailedArm]
  · rw [speedupEntries_mainRun cexFailedArm rfl rfl]
    norm_num [cexFailedArm]

/-- C1 (amended): a numeric speedup line for a scenario is printed iff both of
its measured durations are strictly positive, regardless of whether either arm
returned an error; when it is not printed the line is simply omitted — no
explicit "undefined"/"n/a" marker exists. -/
theorem speedup_line_printed_iff_positive_durations (i : RunInputs)
    (hc : i.connectErr = none) (hp : i.pingErr = none) :
    speedupEntries (mainRun i) =
      (if 0 < i.q1.duration ∧ 0 < i.q2.duration then
        [(1, (i.q1.duration : ℚ) / (i.q2.duration : ℚ))] else [])
      ++ (if 0 < i.q3.duration ∧ 0 < i.q4.duration then
        [(2, (i.q3.duration : ℚ) / (i.q4.duration : ℚ))] else []) :=
  speedupEntries_mainRun i hc hp

/-- Run with a zero duration in scenario 1 and positive durations in scenario 2. -/
def witSpeedupGuard : RunInputs :=
  { connectErr := none, pingErr := none, usersCount := .ok 100000,
    q1 := ⟨40, 3, none⟩, q2 := ⟨40, 0, none⟩, q3 := ⟨46, 4, none⟩,
    q4 := ⟨46, 2, none⟩, q5 := ⟨12, 1, none⟩, explainRows := .ok [], explainIterErr := none }

/-- Witness for the amended C1: scenario 1's line is suppressed (zero optimized
duration), scenario 2's line shows 4/2 = 2. -/
theorem speedup_line_printed_iff_positive_durations_witness :
    speedupEntries (mainRun witSpeedupGuard) = [(2, (2 : ℚ))] := by
  rw [speedup_line_printed_iff_positive_durations witSpeedupGuard rfl rfl]
  norm_num [witSpeedupGuard]

/-- Run measured at exactly the target cardinality of 10,000,000 users. -/
def cexAtTarget : RunInputs :=
  { connectErr := none, pingErr := none, usersCount := .ok 10000000,
    q1 := ⟨40, 114, none⟩, q2 := ⟨40, 19, none⟩, q3 := ⟨46, 424, none⟩,
    q4 := ⟨46, 12, none⟩, q5 := ⟨12, 5, none⟩, explainRows := .ok [], explainIterErr := none }

/-- C2 counterexample: with a measured cardinality of 10,000,000 (positive,
and equal to the target) and a positive optimized duration, no projection is
printed at all — the guard `userCount < 10000000` at `main.go` line 237 skips
the whole block. -/
theorem extrapolation_skipped_at_target_cardinality :
    (0 : ℤ) < scannedUserCount cexAtTarget.usersCount ∧
    0 < cexAtTarget.q2.duration ∧
    estimatedEntries (mainRun cexAtTarget) = [] := by
  refine ⟨by norm_num [scannedUserCount, cexAtTarget], by norm_num [cexAtTarget], ?_⟩
  rw [estimatedEntries_mainRun cexAtTarget rfl rfl]
  norm_num [scannedUserCount, cexAtTarget, extrapTargetN]

/-- C2 (amended): the projection is computed iff the measured cardinality is
strictly below the 10,000,000 target and the optimized simple-query duration is
positive; for a measured cardinality at or above the target it is skipped
(and no positivity of the measured cardinality is required). -/
theorem extrapolation_printed_iff_below_target (i : RunInputs)
    (hc : i.connectErr = none) (hp : i.pingErr = none) :
    estimatedEntries (mainRun i) =
      if scannedUserCount i.usersCount < extrapTargetN ∧ 0 < i.q2.duration then
        [estimatedFor10M (scannedUserCount i.usersCount) i.q2.duration]
      else [] :=
  estimatedEntries_mainRun i hc hp

/-- Run measured at 100,000 users with a positive optimized duration. -/
def witBelowTarget : RunInputs :=
  { connectErr := none, pingErr := none, usersCount := .ok 100000,
    q1 := ⟨40, 114, none⟩, q2 := ⟨40, 19, none⟩, q3 := ⟨46, 424, none⟩,
    q4 := ⟨46, 12, none⟩, q5 := ⟨12, 5, none⟩, explainRows := .ok [], explainIterErr := none }

/-- Witness for the amended C2: below the target the projected value is printed. -/
theorem extrapolation_printed_iff_below_target_witness :
    estimatedEntries (mainRun witBelowTarget) =
      [estimatedFor10M (scannedUserCount witBelowTarget.usersCount)
        witBelowTarget.q2.duration] := by
  rw [extrapolation_printed_iff_below_target witBelowTarget rfl rfl]
  norm_num [scannedUserCount, witBelowTarget, extrapTargetN]

/-- Run where both scenarios are defined: ratios 2/1 = 2 and 2/2 = 1. -/
def cexAvg : RunInputs :=
  { connectErr := none, pingErr := none, usersCount := .ok 100000,
    q1 := ⟨40, 2, none⟩, q2 := ⟨40, 1, none⟩, q3 := ⟨46, 2, none⟩,
    q4 := ⟨46, 2, none⟩, q5 := ⟨12, 1, none⟩, explainRows := .ok [], explainIterErr := none }

/-- C3 counterexample: in `cexAvg` both scenarios succeed with positive
durations, so both speedups are defined (2 and 1, mean 3/2); but the printed
aggregate is `(2+2)/(1+2) = 4/3` — the ratio of summed durations, not the mean
of the per-scenario ratios. -/
theorem avg_speedup_differs_from_mean_of_ratios :
    avgSpeedupEntries (mainRun cexAvg) = [(4 / 3 : ℚ)] ∧
    ((cexAvg.q1.duration : ℚ) / (cexAvg.q2.duration : ℚ)
      + (cexAvg.q3.duration : ℚ) / (cexAvg.q4.duration : ℚ)) / 2 = 3 / 2 ∧
    (4 / 3 : ℚ) ≠ 3 / 2 := by
  refine ⟨?_, by norm_num [cexAvg], by norm_num⟩
  rw [avgSpeedupEntries_mainRun cexAvg rfl rfl]
  norm_num [cexAvg]

/-- C3 (amended): the reported aggregate speedup is the ratio of the summed
baseline durations of scenarios 1 and 2 to their summed optimized durations,
`(d1+d3)/(d2+d4)`; it is printed whenever scenario 1's two durations are
positive, regardless of scenario 2's durations or errors. -/
theorem avg_speedup_is_ratio_of_sums (i : RunInputs)
    (hc : i.connectErr = none) (hp : i.pingErr = none) :
    avgSpeedupEntries (mainRun i) =
      if 0 < i.q1.duration ∧ 0 < i.q2.duration then
        [((i.q1.duration + i.q3.duration : ℤ) : ℚ) / ((i.q2.duration + i.q4.duration : ℤ) : ℚ)]
      else [] :=
  avgSpeedupEntries_mainRun i hc hp

/-- Run with durations 114, 19, 424, 12 (the README's numbers, in ms units). -/
def witAvg : RunInputs :=
  { connectErr := none, pingErr := none, usersCount := .ok 100000,
    q1 := ⟨40, 114, none⟩, q2 := ⟨40, 19, none⟩, q3 := ⟨46, 424, none⟩,
    q4 := ⟨46, 12, none⟩, q5 := ⟨12, 5, none⟩, explainRows := .ok [], explainIterErr := none }

/-- Witness for the amended C3: `(114+424)/(19+12) = 538/31`. -/
theorem avg_speedup_is_ratio_of_sums_witness :
    avgSpeedupEntries (mainRun witAvg) = [(538 / 31 : ℚ)] := by
  rw [avg_speedup_is_ratio_of_sums witAvg rfl rfl]
  norm_num [witAvg]

/-- Run in which three database failures occur: the dataset-count query fails,
one EXPLAIN row's `Scan` fails, and the EXPLAIN row iteration ends with an
error; every other call succeeds. -/
def cexCountFail : RunInputs :=
  { connectErr := none, pingErr := none,
    usersCount := .error "driver: bad connection",
    q1 := ⟨40, 114, none⟩, q2 := ⟨40, 19, none⟩, q3 := ⟨46, 424, none⟩,
    q4 := ⟨46, 12, none⟩, q5 := ⟨12, 5, none⟩,
    explainRows := .ok [.ok "Aggregate", .error "Scan error on column index 0"],
    explainIterErr := some "unexpected EOF" }

/-- C4 counterexample: three database failures occur during the run — the
dataset-count query fails (`main.go` line 167, error discarded), one EXPLAIN
row's `Scan` fails (lines 143-144, skipped by `continue`), and the row
iteration ends with an error (`rows.Err()` is never checked) — yet the output
contains no line reporting any of them. -/
theorem swallowed_failures_produce_no_line :
    cexCountFail.usersCount = Except.error "driver: bad connection" ∧
    cexCountFail.explainRows = .ok [.ok "Aggregate", .error "Scan error on column index 0"] ∧
    cexCountFail.explainIterErr = some "unexpected EOF" ∧
    errorEntries (mainRun cexCountFail) = [] := by
  refine ⟨rfl, rfl, rfl, ?_⟩
  rw [errorEntries_mainRun cexCountFail rfl rfl]
  simp [cexCountFail, errOpt, explainErrOpt]

/-- C4 (amended): in a completed run, exactly the errors of the five scenario
queries and a failure of the EXPLAIN query execution produce user-visible
lines, one each. All other failures are silent: the dataset-count query's
error (`i.usersCount`) never appears, and once the EXPLAIN query itself has
succeeded, per-row `Scan` failures (skipped by `continue`) and the
never-checked iteration error produce no line either, whatever they are. -/
theorem error_lines_exactly_scenario_and_explain_errors (i : RunInputs)
    (hc : i.connectErr = none) (hp : i.pingErr = none) :
    (errorEntries (mainRun i) =
      errOpt 1 .eav i.q1.err ++ errOpt 1 .opt i.q2.err
      ++ errOpt 2 .eav i.q3.err ++ errOpt 2 .opt i.q4.err
      ++ errOpt 3 .opt i.q5.err
      ++ explainErrOpt i.explainRows)
    ∧ ∀ (rows : List (Except String String)) (iter : Option String),
        errorEntries (mainRun { i with explainRows := .ok rows, explainIterErr := iter }) =
          errOpt 1 .eav i.q1.err ++ errOpt 1 .opt i.q2.err
          ++ errOpt 2 .eav i.q3.err ++ errOpt 2 .opt i.q4.err
          ++ errOpt 3 .opt i.q5.err := by
  refine ⟨errorEntries_mainRun i hc hp, fun rows iter => ?_⟩
  rw [errorEntries_mainRun { i with explainRows := .ok rows, explainIterErr := iter } hc hp]
  simp [explainErrOpt]

/-- Run where scenario 2's baseline arm fails, the dataset-count query fails,
one EXPLAIN row scan fails and the iteration errors out. -/
def witErrLines : RunInputs :=
  { connectErr := none, pingErr := none, usersCount := .error "timeout",
    q1 := ⟨40, 114, none⟩, q2 := ⟨40, 19, none⟩,
    q3 := ⟨0, 424, some "relation does not exist"⟩,
    q4 := ⟨46, 12, none⟩, q5 := ⟨12, 5, none⟩,
    explainRows := .ok [.error "Scan failed"], explainIterErr := some "broken pipe" }

/-- Witness for the amended C4: only scenario 2's EAV error is reported; the
dataset-count failure, the failed row scan and the iteration error leave no
trace. -/
theorem error_lines_exactly_scenario_and_explain_errors_witness :
    errorEntries (mainRun witErrLines) =
      [.queryError 2 .eav "relation does not exist"] := by
  rw [(error_lines_exactly_scenario_and_explain_errors witErrLines rfl rfl).1]
  simp [witErrLines, errOpt, explainErrOpt]

/-- C7: for a run in which both comparison scenarios' arms succeed with
strictly positive durations, the two reported speedups are exactly
`baseline duration / optimized duration` (exact rational division, standing
for the `float64` division up to floating-point tolerance). -/
theorem speedup_equals_duration_ratio (i : RunInputs)
    (hc : i.connectErr = none) (hp : i.pingErr = none)
    (_h1 : i.q1.err = none) (_h2 : i.q2.err = none)
    (_h3 : i.q3.err = none) (_h4 : i.q4.err = none)
    (hd1 : 0 < i.q1.duration) (hd2 : 0 < i.q2.duration)
    (hd3 : 0 < i.q3.duration) (hd4 : 0 < i.q4.duration) :
    speedupEntries (mainRun i) =
      [(1, (i.q1.duration : ℚ) / (i.q2.duration : ℚ)),
       (2, (i.q3.duration : ℚ) / (i.q4.duration : ℚ))] := by
  rw [speedupEntries_mainRun i hc hp, if_pos ⟨hd1, hd2⟩, if_pos ⟨hd3, hd4⟩]
  rfl

/-- Fully successful run with durations 114, 19, 424, 12. -/
def witRatio : RunInputs :=
  { connectErr := none, pingErr := none, usersCount := .ok 100000,
    q1 := ⟨40, 114, none⟩, q2 := ⟨40, 19, none⟩, q3 := ⟨46, 424, none⟩,
    q4 := ⟨46, 12, none⟩, q5 := ⟨12, 5, none⟩, explainRows := .ok [], explainIterErr := none }

/-- Witness for C7 at the concrete successful run. -/
theorem speedup_equals_duration_ratio_witness :
    speedupEntries (mainRun witRatio) =
      [(1, (witRatio.q1.duration : ℚ) / (witRatio.q2.duration : ℚ)),
       (2, (witRatio.q3.duration : ℚ) / (witRatio.q4.duration : ℚ))] :=
  speedup_equals_duration_ratio witRatio rfl rfl rfl rfl rfl rfl
    (by norm_num [witRatio]) (by norm_num [witRatio])
    (by norm_num [witRatio]) (by norm_num [witRatio])

/-- C9: the extrapolation guard never checks that the measured cardinality is
positive. When the dataset-count query fails, `userCount` stays `0`, the guard
`0 < 10000000 && duration2 > 0` still holds, and the block prints a projected
duration obtained from the float division `10000000 / 0.0 = +Inf` (here `⊤`)
together with a verdict — instead of skipping or reporting an error. -/
theorem failed_dataset_count_still_extrapolates (i : RunInputs) (e : String)
    (hc : i.connectErr = none) (hp : i.pingErr = none)
    (hu : i.usersCount = .error e) (hd2 : 0 < i.q2.duration) :
    estimatedEntries (mainRun i) = [⊤] ∧
    extrapVerdictEntries (mainRun i) = [extrapVerdict 0 i.q2.duration] := by
  have h0 : scannedUserCount i.usersCount = 0 := by rw [hu]; rfl
  constructor
  · rw [estimatedEntries_mainRun i hc hp, h0,
      if_pos ⟨by decide, hd2⟩]
    simp [estimatedFor10M]
  · rw [extrapVerdictEntries_mainRun i hc hp, h0,
      if_pos ⟨by decide, hd2⟩]

/-- Run with a failed dataset-count query and an otherwise successful simple scenario. -/
def witDivZero : RunInputs :=
  { connectErr := none, pingErr := none, usersCount := .error "broken pipe",
    q1 := ⟨40, 114, none⟩, q2 := ⟨40, 19, none⟩, q3 := ⟨46, 424, none⟩,
    q4 := ⟨46, 12, none⟩, q5 := ⟨12, 5, none⟩, explainRows := .ok [], explainIterErr := none }

/-- Witness for C9: the run projects `+Inf` and still prints a verdict. -/
theorem failed_dataset_count_still_extrapolates_witness :
    estimatedEntries (mainRun witDivZero) = [⊤] ∧
    extrapVerdictEntries (mainRun witDivZero) = [extrapVerdict 0 witDivZero.q2.duration] :=
  failed_dataset_count_still_extrapolates witDivZero "broken pipe" rfl rfl rfl
    (by norm_num [witDivZero])

/-- C10: the `Target achieved` verdict is printed iff the simple scenario's two
durations are both positive, and it is `true` iff the optimized durations of
the simple scenario (`q2`) and the OR scenario (`q4`) are each below the
2-second budget; the AND scenario's result and the dataset count (hence the
extrapolated projection) have no effect on it. -/
theorem target_achieved_iff_optimized_below_budget (i : RunInputs)
    (hc : i.connectErr = none) (hp : i.pingErr = none) :
    targetAchievedEntries (mainRun i) =
      (if 0 < i.q1.duration ∧ 0 < i.q2.duration then
        [decide (i.q2.duration < budgetNs ∧ i.q4.duration < budgetNs)]
      else [])
    ∧ ∀ (q5' : QueryResult) (uc' : Except String ℤ),
        targetAchievedEntries (mainRun { i with q5 := q5', usersCount := uc' }) =
        targetAchievedEntries (mainRun i) := by
  refine ⟨targetAchievedEntries_mainRun i hc hp, fun q5' uc' => ?_⟩
  rw [targetAchievedEntries_mainRun { i with q5 := q5', usersCount := uc' } hc hp,
    targetAchievedEntries_mainRun i hc hp]

/-- Run with optimized durations 19 and 12 ns, well below the budget. -/
def witTarget : RunInputs :=
  { connectErr := none, pingErr := none, usersCount := .ok 100000,
    q1 := ⟨40, 114, none⟩, q2 := ⟨40, 19, none⟩, q3 := ⟨46, 424, none⟩,
    q4 := ⟨46, 12, none⟩, q5 := ⟨12, 5, none⟩, explainRows := .ok [], explainIterErr := none }

/-- Witness for C10: the verdict is printed and is `true` at the concrete run. -/
theorem target_achieved_iff_optimized_below_budget_witness :
    targetAchievedEntries (mainRun witTarget) = [true] := by
  rw [(target_achieved_iff_optimized_below_budget witTarget rfl rfl).1]
  norm_num [witTarget, budgetNs]
